import Mathlib

/-!
Shallow embedding of `twisted/trial/assertions.py` (Twisted trial assertion
primitives). Python exceptions are modelled by an exception-kind hierarchy
`ExcKind` with the Python subclass relation, and an exception value `Exc`
carrying its kind, its message (`raise FailTest, msg` with `msg` possibly
`None`) and the textual traceback that was attached to it while it was in
flight. A call to an assertion function is modelled as a value of
`Except Exc α`: `Except.ok` is a normal return, `Except.error` a raised
exception. Python numbers are modelled by `ℚ`; a callable under test is
modelled by its invocation outcome `Except Exc V`.
-/

set_option autoImplicit false

namespace TrialAssertions

/-- The exception classes that appear in the module and in its claims:
`Exception` is the Python root, `AssertionError` a builtin subclass of it,
`FailTest(AssertionError)` and `SkipTest(Exception)` are declared in
`assertions.py`; `ValueError`, `TypeError` and `ZeroDivisionError` are
builtin kinds used as sample expected/actual kinds. -/
inductive ExcKind where
  | exception
  | assertionError
  | failTest
  | skipTest
  | valueError
  | typeError
  | zeroDivisionError
  deriving DecidableEq, Repr

/-- The linear method-resolution order of each kind: the class itself
followed by its base classes, ending at `Exception`. `FailTest` derives
`AssertionError` (`class FailTest(AssertionError)`), `SkipTest` derives
`Exception`, the builtins derive `Exception`. -/
def mro : ExcKind → List ExcKind
  | ExcKind.exception => [ExcKind.exception]
  | ExcKind.assertionError => [ExcKind.assertionError, ExcKind.exception]
  | ExcKind.failTest => [ExcKind.failTest, ExcKind.assertionError, ExcKind.exception]
  | ExcKind.skipTest => [ExcKind.skipTest, ExcKind.exception]
  | ExcKind.valueError => [ExcKind.valueError, ExcKind.exception]
  | ExcKind.typeError => [ExcKind.typeError, ExcKind.exception]
  | ExcKind.zeroDivisionError => [ExcKind.zeroDivisionError, ExcKind.exception]

/-- Python `issubclass(k, e)` / `except e` matching for a raised kind `k`. -/
def subclassOf (k e : ExcKind) : Bool :=
  (mro k).contains e

/-- Python `__name__` of each exception class. -/
def excName : ExcKind → String
  | ExcKind.exception => "Exception"
  | ExcKind.assertionError => "AssertionError"
  | ExcKind.failTest => "FailTest"
  | ExcKind.skipTest => "SkipTest"
  | ExcKind.valueError => "ValueError"
  | ExcKind.typeError => "TypeError"
  | ExcKind.zeroDivisionError => "ZeroDivisionError"

/-- Rendering `'%s' % cls` of an exception class (Python 2 classic-class rendering:
the fully qualified class name). -/
def kindQualName : ExcKind → String
  | ExcKind.exception => "exceptions.Exception"
  | ExcKind.assertionError => "exceptions.AssertionError"
  | ExcKind.failTest => "twisted.trial.assertions.FailTest"
  | ExcKind.skipTest => "twisted.trial.assertions.SkipTest"
  | ExcKind.valueError => "exceptions.ValueError"
  | ExcKind.typeError => "exceptions.TypeError"
  | ExcKind.zeroDivisionError => "exceptions.ZeroDivisionError"

/-- An in-flight Python exception: its class, the message it was raised
with (`raise Kind, msg`, where `msg` may be `None`), and the textual
traceback attached to it while propagating (what
`failure.Failure().getTraceback()` renders for it). -/
structure Exc where
  kind : ExcKind
  msg : Option String
  tb : String
  deriving DecidableEq, Repr

/-- Truth of whether the call raised the Failure Signal `FailTest`. -/
def isFailTest {α : Type} : Except Exc α → Bool
  | Except.error e => decide (e.kind = ExcKind.failTest)
  | Except.ok _ => false

/-- Python `msg or default` for an optional message: `None` and the empty
string are falsy, so both select the default. -/
def pyOr (msg : Option String) (dflt : String) : String :=
  match msg with
  | some s => if s.length = 0 then dflt else s
  | none => dflt

/-- Python 2 `%r` of a string: the quoted form. -/
def pyReprStr (s : String) : String :=
  "\x27" ++ s ++ "\x27"

/-- Source `fail(msg)`: unconditionally `raise FailTest, msg`. -/
def fail (msg : Option String) : Except Exc Unit :=
  Except.error ⟨ExcKind.failTest, msg, ""⟩

/-- Source `failIf(condition, msg)`: `if condition: raise FailTest, msg` then
`return condition`. `condition` is any object with a truthiness, modelled
by the predicate `truthy`. -/
def failIf {V : Type} (truthy : V → Bool) (condition : V) (msg : Option String) :
    Except Exc V :=
  if truthy condition then Except.error ⟨ExcKind.failTest, msg, ""⟩
  else Except.ok condition

/-- Source `failUnless(condition, msg)`: `if not condition: raise FailTest, msg`
then `return condition`. -/
def failUnless {V : Type} (truthy : V → Bool) (condition : V) (msg : Option String) :
    Except Exc V :=
  if !truthy condition then Except.error ⟨ExcKind.failTest, msg, ""⟩
  else Except.ok condition

/-- Modelled from the spec: `twisted.python.util.raises(exception, f, ...)`
lives outside this module (only imported here). Per §4.7 of the spec it
invokes the callable and reports whether it raised the expected kind:
a normal return yields false, an exception of the expected kind (or a
subtype) is caught and yields true, and any other exception propagates out
unchanged. The callable's invocation is modelled by its outcome. -/
def utilRaises {V : Type} (exception : ExcKind) (outcome : Except Exc V) :
    Except Exc Bool :=
  match outcome with
  | Except.ok _ => Except.ok false
  | Except.error e =>
      if subclassOf e.kind exception then Except.ok true else Except.error e

/-- Source `failUnlessRaises(exception, f, *args, **kwargs)`: inside a `try`,
if `util.raises` reports no expected exception, `raise FailTest,
'%s not raised' % exception.__name__`; an escaping `FailTest` is re-raised
unchanged by `except FailTest, e: raise`; any other escaping exception is
converted by the bare `except:` into `FailTest, '%s raised instead of
%s:\n %s' % (sys.exc_info()[0], exception.__name__,
failure.Failure().getTraceback())`. -/
def failUnlessRaises {V : Type} (exception : ExcKind) (outcome : Except Exc V) :
    Except Exc Unit :=
  let tryBody : Except Exc Unit :=
    match utilRaises exception outcome with
    | Except.error e => Except.error e
    | Except.ok true => Except.ok ()
    | Except.ok false =>
        Except.error ⟨ExcKind.failTest, some (excName exception ++ " not raised"), ""⟩
  match tryBody with
  | Except.ok u => Except.ok u
  | Except.error e =>
      if subclassOf e.kind ExcKind.failTest then Except.error e
      else
        Except.error ⟨ExcKind.failTest,
          some (kindQualName e.kind ++ " raised instead of " ++ excName exception ++
            ":\n " ++ e.tb), ""⟩

/-- Source `failUnlessEqual(first, second, msg)`: `if not first == second: raise
FailTest, (msg or '%r != %r' % (first, second))` then `return first`.
`%r` of a value is modelled by the rendering `reprV`. -/
def failUnlessEqual {V : Type} [DecidableEq V] (reprV : V → String)
    (first second : V) (msg : Option String) : Except Exc V :=
  if ¬ first = second then
    Except.error ⟨ExcKind.failTest,
      some (pyOr msg (reprV first ++ " != " ++ reprV second)), ""⟩
  else Except.ok first

/-- Source `failIfEqual(first, second, msg)`: `if not first != second: raise
FailTest, (msg or '%r == %r' % (first, second))` then `return first`. -/
def failIfEqual {V : Type} [DecidableEq V] (reprV : V → String)
    (first second : V) (msg : Option String) : Except Exc V :=
  if ¬ first ≠ second then
    Except.error ⟨ExcKind.failTest,
      some (pyOr msg (reprV first ++ " == " ++ reprV second)), ""⟩
  else Except.ok first

/-- A Python object reference: object identity (`is`) compares the object
id, value equality (`==`) compares the carried value. -/
structure PyObj (V : Type) where
  oid : Nat
  val : V
  deriving DecidableEq, Repr

/-- Source `failUnlessIdentical(first, second, msg)`: `if first is not second:
raise FailTest, (msg or '%r is not %r' % (first, second))` then
`return first`. -/
def failUnlessIdentical {V : Type} (reprV : V → String)
    (first second : PyObj V) (msg : Option String) : Except Exc (PyObj V) :=
  if first.oid ≠ second.oid then
    Except.error ⟨ExcKind.failTest,
      some (pyOr msg (reprV first.val ++ " is not " ++ reprV second.val)), ""⟩
  else Except.ok first

/-- Source `failIfIdentical(first, second, msg)`: `if first is second: raise
FailTest, (msg or '%r is %r' % (first, second))` then `return first`. -/
def failIfIdentical {V : Type} (reprV : V → String)
    (first second : PyObj V) (msg : Option String) : Except Exc (PyObj V) :=
  if first.oid = second.oid then
    Except.error ⟨ExcKind.failTest,
      some (pyOr msg (reprV first.val ++ " is " ++ reprV second.val)), ""⟩
  else Except.ok first

/-- Source `failUnlessIn(containee, container, msg)`: `if containee not in
container: raise FailTest, (msg or "%r not in %r" % (containee,
container))` then `return containee`. The container is modelled as the
sequence of its members (for a mapping, its keys). -/
def failUnlessIn {V : Type} [DecidableEq V] (reprV : V → String)
    (reprC : List V → String) (containee : V) (container : List V)
    (msg : Option String) : Except Exc V :=
  if ¬ containee ∈ container then
    Except.error ⟨ExcKind.failTest,
      some (pyOr msg (reprV containee ++ " not in " ++ reprC container)), ""⟩
  else Except.ok containee

/-- Source `failIfIn(containee, container, msg)`: `if containee in container:
raise FailTest, (msg or "%r in %r" % (containee, container))` then
`return containee`. -/
def failIfIn {V : Type} [DecidableEq V] (reprV : V → String)
    (reprC : List V → String) (containee : V) (container : List V)
    (msg : Option String) : Except Exc V :=
  if containee ∈ container then
    Except.error ⟨ExcKind.failTest,
      some (pyOr msg (reprV containee ++ " in " ++ reprC container)), ""⟩
  else Except.ok containee

/-- Whether `sub` occurs at the head of `h` (`h` starts with `sub`). -/
def charsStartWith : List Char → List Char → Bool
  | [], _ => true
  | _ :: _, [] => false
  | a :: s, b :: h => a = b && charsStartWith s h

/-- Index search over character lists: the current index `i` if `sub`
occurs here, else continue one position further; `-1` past the end. -/
def charsFind (sub : List Char) : List Char → Int → Int
  | h, i =>
    if charsStartWith sub h then i
    else
      match h with
      | [] => -1
      | _ :: t => charsFind sub t (i + 1)

/-- Python `astring.find(substring)`: the lowest index at which
`substring` occurs in `astring`, and `-1` when it does not occur. -/
def strFind (astring substring : String) : Int :=
  charsFind substring.data astring.data 0

/-- Source `failUnlessSubstring(substring, astring, msg)`: `if
astring.find(substring) == -1: raise FailTest, (msg or "%r not found in
%r" % (substring, astring))`; returns `None`. -/
def failUnlessSubstring (substring astring : String) (msg : Option String) :
    Except Exc Unit :=
  if strFind astring substring = -1 then
    Except.error ⟨ExcKind.failTest,
      some (pyOr msg (pyReprStr substring ++ " not found in " ++ pyReprStr astring)), ""⟩
  else Except.ok ()

/-- Source `failIfSubstring(substring, astring, msg)`: `if
astring.find(substring) != -1: raise FailTest, (msg or "%r found in %r" %
(substring, astring))`; returns `None`. -/
def failIfSubstring (substring astring : String) (msg : Option String) :
    Except Exc Unit :=
  if strFind astring substring ≠ -1 then
    Except.error ⟨ExcKind.failTest,
      some (pyOr msg (pyReprStr substring ++ " found in " ++ pyReprStr astring)), ""⟩
  else Except.ok ()

/-- Power `10**n` as a rational, for an integer (possibly negative) `n`. -/
def pow10 (n : Int) : ℚ :=
  if 0 ≤ n then (10 : ℚ) ^ n.toNat else 1 / (10 : ℚ) ^ (-n).toNat

/-- Python 2 `round(x)` to an integer: round half away from zero. -/
def roundHalfAway (q : ℚ) : Int :=
  if 0 ≤ q then ⌊q + 1 / 2⌋ else -⌊-q + 1 / 2⌋

/-- Python 2 `round(x, n)`: `x` rounded to `n` decimal places, half away
from zero (exact-rational model of the float operation). -/
def pyRound (x : ℚ) (n : Int) : ℚ :=
  (roundHalfAway (x * pow10 n) : ℚ) / pow10 n

/-- Source `failIfAlmostEqual(first, second, places=7, msg)`: `if round(second -
first, places) == 0: raise FailTest, (msg or '%r == %r within %r places' %
(first, second, places))`; returns `None`. -/
def failIfAlmostEqual (first second : ℚ) (places : Int) (msg : Option String) :
    Except Exc Unit :=
  if pyRound (second - first) places = 0 then
    Except.error ⟨ExcKind.failTest,
      some (pyOr msg (toString first ++ " == " ++ toString second ++
        " within " ++ toString places ++ " places")), ""⟩
  else Except.ok ()

/-- Source `failUnlessAlmostEqual(first, second, places=7, msg)`: `if
round(second - first, places) != 0: raise FailTest, (msg or '%r != %r
within %r places' % (first, second, places))`; returns `None`. -/
def failUnlessAlmostEqual (first second : ℚ) (places : Int) (msg : Option String) :
    Except Exc Unit :=
  if pyRound (second - first) places ≠ 0 then
    Except.error ⟨ExcKind.failTest,
      some (pyOr msg (toString first ++ " != " ++ toString second ++
        " within " ++ toString places ++ " places")), ""⟩
  else Except.ok ()

/-- Source `assertApproximates(first, second, tolerance, msg)`: `if abs(first -
second) > tolerance: raise FailTest, (msg or "%s ~== %s" % (first,
second))` then `return first`. -/
def assertApproximates (first second tolerance : ℚ) (msg : Option String) :
    Except Exc ℚ :=
  if |first - second| > tolerance then
    Except.error ⟨ExcKind.failTest,
      some (pyOr msg (toString first ++ " ~== " ++ toString second)), ""⟩
  else Except.ok first

/-- Collaborator `f.trap(*expectedFailures)`: returns the
first expected kind the failure's kind is a subclass of, and re-raises the
failure when none matches. -/
def trap (f : Exc) : List ExcKind → Except Exc ExcKind
  | [] => Except.error f
  | k :: ks => if subclassOf f.kind k then Except.ok k else trap f ks

/-- Modelled from the spec: `assertFailure(deferred, *expectedFailures)`
attaches `_cb` (raises `FailTest, "did not catch an error, instead got
%r"`) as callback and `lambda f: f.trap(*expectedFailures)` as errback to
the deferred. The deferred collaborator (§4.8, out of scope) is modelled
by its resolved outcome, and `addCallbacks` by transforming that outcome. -/
def assertFailure {V : Type} (reprV : V → String) (deferred : Except Exc V)
    (expectedFailures : List ExcKind) : Except Exc ExcKind :=
  match deferred with
  | Except.ok v =>
      Except.error ⟨ExcKind.failTest,
        some ("did not catch an error, instead got " ++ reprV v), ""⟩
  | Except.error f => trap f expectedFailures

/-! The aliases at the bottom of the module: each public synonym is the
very same function object as its canonical target. -/

def assertAlmostEqual := @failUnlessAlmostEqual

def assertAlmostEquals := @failUnlessAlmostEqual

def assertNotAlmostEqual := @failIfAlmostEqual

def assertNotAlmostEquals := @failIfAlmostEqual

def assertEqual := @failUnlessEqual

def assertEquals := @failUnlessEqual

def assertNotEqual := @failIfEqual

def assertNotEquals := @failIfEqual

def assertRaises := @failUnlessRaises

def assert_ := @failUnless

def failIfEquals := @failIfEqual

def assertIdentical := @failUnlessIdentical

def assertNotIdentical := @failIfIdentical

def assertIn := @failUnlessIn

def assertNotIn := @failIfIn

def failUnlessFailure := @assertFailure

def assertSubstring := @failUnlessSubstring

def assertNotSubstring := @failIfSubstring

/-- C5: for every value `x`, `failUnlessEqual(x, x)` succeeds and returns
`x`, and `failIfEqual(x, x)` raises the Failure Signal `FailTest` (with its
default message `'%r == %r' % (x, x)`). -/
theorem failUnlessEqual_refl_failIfEqual_refl {V : Type} [DecidableEq V]
    (reprV : V → String) (x : V) :
    failUnlessEqual reprV x x none = Except.ok x ∧
    failIfEqual reprV x x none =
      Except.error ⟨ExcKind.failTest, some (reprV x ++ " == " ++ reprV x), ""⟩ := by
  constructor
  · simp [failUnlessEqual]
  · simp [failIfEqual, pyOr]

/-- C4: `failIfEqual(first, second)` raises the Failure Signal exactly when
`first == second`, with default message `'%r == %r' % (first, second)` when
no message is supplied, and returns `first` otherwise. -/
theorem failIfEqual_spec {V : Type} [DecidableEq V] (reprV : V → String)
    (first second : V) (msg : Option String) :
    (isFailTest (failIfEqual reprV first second msg) = true ↔ first = second) ∧
    (first = second → failIfEqual reprV first second none =
      Except.error ⟨ExcKind.failTest,
        some (reprV first ++ " == " ++ reprV second), ""⟩) ∧
    (first ≠ second → failIfEqual reprV first second msg = Except.ok first) := by
  by_cases h : first = second
  · refine ⟨?_, fun _ => ?_, fun hne => absurd h hne⟩
    · simp [failIfEqual, isFailTest, h]
    · simp [failIfEqual, pyOr, h]
  · refine ⟨?_, fun he => absurd he h, fun _ => ?_⟩
    · simp [failIfEqual, isFailTest, h]
    · simp [failIfEqual, h]

/-- Witness for C4 at `first = second = 3` and at `first = 3, second = 4`
over `Nat`. -/
theorem failIfEqual_spec_witness :
    isFailTest (failIfEqual toString (3 : Nat) 3 none) = true ∧
    failIfEqual toString (3 : Nat) 3 none =
      Except.error ⟨ExcKind.failTest,
        some (toString (3 : Nat) ++ " == " ++ toString (3 : Nat)), ""⟩ ∧
    failIfEqual toString (3 : Nat) 4 none = Except.ok 3 :=
  ⟨(failIfEqual_spec toString 3 3 none).1.2 rfl,
   (failIfEqual_spec toString 3 3 none).2.1 rfl,
   (failIfEqual_spec toString 3 4 none).2.2 (by decide)⟩

/-- C3: `assertApproximates(first, second, tolerance)` raises the Failure
Signal if and only if `abs(first - second) > tolerance`, returns `first`
otherwise, and in particular succeeds when `abs(first - second)` equals
`tolerance` exactly. -/
theorem assertApproximates_spec (first second tolerance : ℚ) (msg : Option String) :
    (isFailTest (assertApproximates first second tolerance msg) = true ↔
      |first - second| > tolerance) ∧
    (|first - second| ≤ tolerance →
      assertApproximates first second tolerance msg = Except.ok first) ∧
    (|first - second| = tolerance →
      assertApproximates first second tolerance msg = Except.ok first) := by
  refine ⟨?_, fun h => ?_, fun h => ?_⟩
  · by_cases h : |first - second| > tolerance
    · simp [assertApproximates, isFailTest, h]
    · simp [assertApproximates, isFailTest, h]
  · simp [assertApproximates, not_lt.2 h]
  · simp [assertApproximates, not_lt.2 (le_of_eq h)]

/-- Witness for C3: `assertApproximates(10, 10.05, 0.1)` succeeds inside
the tolerance band, and `assertApproximates(1, 0, 1)` succeeds on the exact
boundary. -/
theorem assertApproximates_spec_witness :
    (|(10 : ℚ) - 201 / 20| ≤ 1 / 10 ∧
      assertApproximates 10 (201 / 20) (1 / 10) none = Except.ok 10) ∧
    (|(1 : ℚ) - 0| = 1 ∧
      assertApproximates 1 0 1 none = Except.ok 1) :=
  ⟨⟨by rw [abs_le]; norm_num,
    (assertApproximates_spec 10 (201 / 20) (1 / 10) none).2.1 (by rw [abs_le]; norm_num)⟩,
   ⟨by norm_num,
    (assertApproximates_spec 1 0 1 none).2.2 (by norm_num)⟩⟩

/-- C6: `failUnlessAlmostEqual(first, second, places)` raises the Failure
Signal if and only if `round(second - first, places) != 0`, and
`failIfAlmostEqual(first, second, places)` raises it if and only if
`round(second - first, places) == 0` (Python 2 rounding, half away from
zero, modelled by `pyRound`). -/
theorem almostEqual_round_spec (first second : ℚ) (places : Int) (msg : Option String) :
    (isFailTest (failUnlessAlmostEqual first second places msg) = true ↔
      pyRound (second - first) places ≠ 0) ∧
    (isFailTest (failIfAlmostEqual first second places msg) = true ↔
      pyRound (second - first) places = 0) := by
  by_cases h : pyRound (second - first) places = 0
  · constructor
    · simp [failUnlessAlmostEqual, isFailTest, h]
    · simp [failIfAlmostEqual, isFailTest, h]
  · constructor
    · simp [failUnlessAlmostEqual, isFailTest, h]
    · simp [failIfAlmostEqual, isFailTest, h]

/-- C7: every public synonym is the very same function as its canonical
target, so for all inputs it raises or succeeds identically, returns the
same value, and produces byte-identical default failure messages. -/
theorem aliases_spec :
    @assertAlmostEqual = @failUnlessAlmostEqual ∧
    @assertAlmostEquals = @failUnlessAlmostEqual ∧
    @assertNotAlmostEqual = @failIfAlmostEqual ∧
    @assertNotAlmostEquals = @failIfAlmostEqual ∧
    @assertEqual = @failUnlessEqual ∧
    @assertEquals = @failUnlessEqual ∧
    @assertNotEqual = @failIfEqual ∧
    @assertNotEquals = @failIfEqual ∧
    @assertRaises = @failUnlessRaises ∧
    @assert_ = @failUnless ∧
    @failIfEquals = @failIfEqual ∧
    @assertIdentical = @failUnlessIdentical ∧
    @assertNotIdentical = @failIfIdentical ∧
    @assertIn = @failUnlessIn ∧
    @assertNotIn = @failIfIn ∧
    @failUnlessFailure = @assertFailure ∧
    @assertSubstring = @failUnlessSubstring ∧
    @assertNotSubstring = @failIfSubstring :=
  ⟨rfl, rfl, rfl, rfl, rfl, rfl, rfl, rfl, rfl, rfl, rfl, rfl, rfl, rfl,
   rfl, rfl, rfl, rfl⟩

/-- C8 counterexample: `failIf(True)` with the message parameter omitted
raises the Failure Signal carrying no message at all (`raise FailTest,
None`), not a descriptive non-empty default message. -/
theorem failIf_no_default_message_cex :
    failIf (fun b : Bool => b) true none = Except.error ⟨ExcKind.failTest, none, ""⟩ ∧
    Exc.msg ⟨ExcKind.failTest, none, ""⟩ = none :=
  ⟨rfl, rfl⟩

/-- C8 amended: `failIf` raises the Failure Signal exactly when the
condition is truthy and returns the condition otherwise, dually for
`failUnless`; the raised Failure Signal carries exactly the caller's
message parameter, so with the parameter omitted it carries no message
(`None`) rather than a descriptive default. -/
theorem failIf_failUnless_spec {V : Type} (truthy : V → Bool) (condition : V)
    (msg : Option String) :
    (truthy condition = true →
      failIf truthy condition msg = Except.error ⟨ExcKind.failTest, msg, ""⟩) ∧
    (truthy condition = false → failIf truthy condition msg = Except.ok condition) ∧
    (truthy condition = false →
      failUnless truthy condition msg = Except.error ⟨ExcKind.failTest, msg, ""⟩) ∧
    (truthy condition = true → failUnless truthy condition msg = Except.ok condition) :=
  ⟨fun h => by simp [failIf, h],
   fun h => by simp [failIf, h],
   fun h => by simp [failUnless, h],
   fun h => by simp [failUnless, h]⟩

/-- Witness for C8 at boolean conditions `True` and `False` with the
message parameter omitted. -/
theorem failIf_failUnless_spec_witness :
    failIf (fun b : Bool => b) true none = Except.error ⟨ExcKind.failTest, none, ""⟩ ∧
    failIf (fun b : Bool => b) false none = Except.ok false ∧
    failUnless (fun b : Bool => b) false none =
      Except.error ⟨ExcKind.failTest, none, ""⟩ ∧
    failUnless (fun b : Bool => b) true none = Except.ok true :=
  ⟨(failIf_failUnless_spec (fun b : Bool => b) true none).1 rfl,
   (failIf_failUnless_spec (fun b : Bool => b) false none).2.1 rfl,
   (failIf_failUnless_spec (fun b : Bool => b) false none).2.2.1 rfl,
   (failIf_failUnless_spec (fun b : Bool => b) true none).2.2.2 rfl⟩

/-- C9: `FailTest` is a subclass of `AssertionError`, so a callable that
raises a nested `FailTest` makes `failUnlessRaises(AssertionError, f)` and
`failUnlessRaises(FailTest, f)` succeed and return normally instead of
propagating the nested failure. -/
theorem failTest_subclass_assertionError_spec {V : Type} (m : Option String)
    (t : String) :
    subclassOf ExcKind.failTest ExcKind.assertionError = true ∧
    failUnlessRaises ExcKind.assertionError
      (Except.error ⟨ExcKind.failTest, m, t⟩ : Except Exc V) = Except.ok () ∧
    failUnlessRaises ExcKind.failTest
      (Except.error ⟨ExcKind.failTest, m, t⟩ : Except Exc V) = Except.ok () := by
  refine ⟨rfl, ?_, ?_⟩ <;>
    simp [failUnlessRaises, utilRaises, subclassOf, mro]

/-- C1 counterexample: with expected kind `ValueError` and a callable that
raises the different kind `FailTest` with message `"boom"`, the raised
Failure Signal keeps the message `"boom"`, which does not embed the
expected kind's name `"ValueError"` (nor the actual kind or a traceback);
the re-raise branch for nested `FailTest` wins over the wrapping branch. -/
theorem failUnlessRaises_wrong_kind_nested_cex :
    failUnlessRaises ExcKind.valueError
      (Except.error ⟨ExcKind.failTest, some "boom", ""⟩ : Except Exc Unit) =
      Except.error ⟨ExcKind.failTest, some "boom", ""⟩ ∧
    excName ExcKind.valueError = "ValueError" ∧
    strFind "boom" "ValueError" = -1 :=
  ⟨rfl, rfl, rfl⟩

/-- C1 amended: `failUnlessRaises(E, f)` returns normally when `f` raises
an error of kind `E` or a subtype; raises `FailTest` with message
`"<E.__name__> not raised"` when `f` raises no error; and when `f` raises a
*non-FailTest* error of a different kind, raises `FailTest` whose message
embeds the actual error's kind, the expected kind and the textual
traceback (a nested `FailTest` of a different kind is instead re-raised
unchanged, see the nested-failure claim). -/
theorem failUnlessRaises_spec {V : Type} (exceptionKind : ExcKind) (v : V)
    (e : Exc) :
    (subclassOf e.kind exceptionKind = true →
      failUnlessRaises exceptionKind (Except.error e : Except Exc V) =
        Except.ok ()) ∧
    (failUnlessRaises exceptionKind (Except.ok v) =
      Except.error ⟨ExcKind.failTest,
        some (excName exceptionKind ++ " not raised"), ""⟩) ∧
    (subclassOf e.kind exceptionKind = false →
      subclassOf e.kind ExcKind.failTest = false →
      failUnlessRaises exceptionKind (Except.error e : Except Exc V) =
        Except.error ⟨ExcKind.failTest,
          some (kindQualName e.kind ++ " raised instead of " ++
            excName exceptionKind ++ ":\n " ++ e.tb), ""⟩) := by
  refine ⟨fun h => ?_, ?_, fun h1 h2 => ?_⟩
  · simp [failUnlessRaises, utilRaises, h]
  · simp [failUnlessRaises, utilRaises, subclassOf, mro]
  · simp [failUnlessRaises, utilRaises, h1, h2]

/-- Witness for C1 at expected kind `ZeroDivisionError`: a raised
`ZeroDivisionError` succeeds, a normal return fails with `"not raised"`,
and a raised `ValueError` fails with the wrapping message. -/
theorem failUnlessRaises_spec_witness :
    failUnlessRaises ExcKind.zeroDivisionError
      (Except.error ⟨ExcKind.zeroDivisionError, none, "tb0"⟩ : Except Exc Unit) =
      Except.ok () ∧
    failUnlessRaises ExcKind.zeroDivisionError (Except.ok ()) =
      Except.error ⟨ExcKind.failTest,
        some (excName ExcKind.zeroDivisionError ++ " not raised"), ""⟩ ∧
    failUnlessRaises ExcKind.zeroDivisionError
      (Except.error ⟨ExcKind.valueError, some "invalid literal", "tb1"⟩ :
        Except Exc Unit) =
      Except.error ⟨ExcKind.failTest,
        some (kindQualName ExcKind.valueError ++ " raised instead of " ++
          excName ExcKind.zeroDivisionError ++ ":\n " ++ "tb1"), ""⟩ :=
  ⟨(failUnlessRaises_spec ExcKind.zeroDivisionError ()
      ⟨ExcKind.zeroDivisionError, none, "tb0"⟩).1 rfl,
   (failUnlessRaises_spec ExcKind.zeroDivisionError ()
      ⟨ExcKind.zeroDivisionError, none, "tb0"⟩).2.1,
   (failUnlessRaises_spec ExcKind.zeroDivisionError ()
      ⟨ExcKind.valueError, some "invalid literal", "tb1"⟩).2.2 rfl rfl⟩

/-- C2 counterexample: a callable raising the Failure Signal `FailTest`
with message `"nested failure"` under expected kind `AssertionError` makes
`failUnlessRaises` succeed (`FailTest` is a subclass of `AssertionError`,
so `util.raises` catches it), rather than propagating the same Failure
Signal unchanged. -/
theorem failUnlessRaises_swallows_nested_cex :
    failUnlessRaises ExcKind.assertionError
      (Except.error ⟨ExcKind.failTest, some "nested failure", "tb"⟩ :
        Except Exc Unit) = Except.ok () ∧
    (Except.ok () : Except Exc Unit) ≠
      Except.error ⟨ExcKind.failTest, some "nested failure", "tb"⟩ :=
  ⟨rfl, fun h => Except.noConfusion h⟩

/-- C2 amended: a nested `FailTest` raised by the callable propagates
unchanged (same error value, same message) exactly when `FailTest` is not a
subclass of the expected kind `E`; when it is (`E` is `FailTest`,
`AssertionError` or `Exception`), the assertion instead succeeds. In
neither case is it converted into a wrong-exception-type failure. -/
theorem failUnlessRaises_nested_failTest_spec {V : Type}
    (exceptionKind : ExcKind) (m : Option String) (t : String) :
    (subclassOf ExcKind.failTest exceptionKind = false →
      failUnlessRaises exceptionKind
        (Except.error ⟨ExcKind.failTest, m, t⟩ : Except Exc V) =
        Except.error ⟨ExcKind.failTest, m, t⟩) ∧
    (subclassOf ExcKind.failTest exceptionKind = true →
      failUnlessRaises exceptionKind
        (Except.error ⟨ExcKind.failTest, m, t⟩ : Except Exc V) =
        Except.ok ()) := by
  refine ⟨fun h => ?_, fun h => ?_⟩
  · simp [failUnlessRaises, utilRaises, h,
      show subclassOf ExcKind.failTest ExcKind.failTest = true from rfl]
  · simp [failUnlessRaises, utilRaises, h]

/-- Witness for C2 at expected kinds `ValueError` (the nested `FailTest`
propagates unchanged) and `AssertionError` (the assertion succeeds). -/
theorem failUnlessRaises_nested_failTest_spec_witness :
    failUnlessRaises ExcKind.valueError
      (Except.error ⟨ExcKind.failTest, some "nested failure", "tb"⟩ :
        Except Exc Unit) =
      Except.error ⟨ExcKind.failTest, some "nested failure", "tb"⟩ ∧
    failUnlessRaises ExcKind.assertionError
      (Except.error ⟨ExcKind.failTest, some "nested failure", "tb"⟩ :
        Except Exc Unit) = Except.ok () :=
  ⟨(failUnlessRaises_nested_failTest_spec ExcKind.valueError
      (some "nested failure") "tb").1 rfl,
   (failUnlessRaises_nested_failTest_spec ExcKind.assertionError
      (some "nested failure") "tb").2 rfl⟩

/-- C10: on success `failUnlessAlmostEqual`, `failIfAlmostEqual`,
`failUnlessSubstring` and `failIfSubstring` return no value (Python
`None`, here `()` — their bodies have no `return` statement), while the
equality, identity, containment and boolean assertions return a
caller-supplied value (`first`, the containee, or the condition). -/
theorem success_return_values_spec {V : Type} [DecidableEq V]
    (reprV : V → String) (reprC : List V → String) (truthy : V → Bool)
    (first second : ℚ) (places : Int) (substring astring : String)
    (x containee condition : V) (container : List V) (obj : PyObj V) :
    (pyRound (second - first) places = 0 →
      failUnlessAlmostEqual first second places none = Except.ok ()) ∧
    (pyRound (second - first) places ≠ 0 →
      failIfAlmostEqual first second places none = Except.ok ()) ∧
    (strFind astring substring ≠ -1 →
      failUnlessSubstring substring astring none = Except.ok ()) ∧
    (strFind astring substring = -1 →
      failIfSubstring substring astring none = Except.ok ()) ∧
    (failUnlessEqual reprV x x none = Except.ok x) ∧
    (containee ∈ container →
      failUnlessIn reprV reprC containee container none = Except.ok containee) ∧
    (truthy condition = false → failIf truthy condition none = Except.ok condition) ∧
    (failUnlessIdentical reprV obj obj none = Except.ok obj) :=
  ⟨fun h => by simp [failUnlessAlmostEqual, h],
   fun h => by simp [failIfAlmostEqual, h],
   fun h => by simp [failUnlessSubstring, h],
   fun h => by simp [failIfSubstring, h],
   by simp [failUnlessEqual],
   fun h => by simp [failUnlessIn, h],
   fun h => by simp [failIf, h],
   by simp [failUnlessIdentical]⟩

/-- Witness for C10: the four no-value assertions return `()` on concrete
successful inputs, and the value-returning assertions return their
caller-supplied argument. -/
theorem success_return_values_spec_witness :
    failUnlessAlmostEqual 1 (10000001 / 10000000) 6 none = Except.ok () ∧
    failIfAlmostEqual 1 (101 / 100) 2 none = Except.ok () ∧
    failUnlessSubstring "ell" "hello" none = Except.ok () ∧
    failIfSubstring "xyz" "hello" none = Except.ok () ∧
    failUnlessEqual toString (3 : Nat) 3 none = Except.ok 3 ∧
    failUnlessIn toString toString 3 [1, 2, 3] none = Except.ok 3 ∧
    failIf (fun n : Nat => decide (n ≠ 0)) 0 none = Except.ok 0 ∧
    failUnlessIdentical toString (⟨1, 5⟩ : PyObj Nat) ⟨1, 5⟩ none =
      Except.ok ⟨1, 5⟩ :=
  ⟨(success_return_values_spec toString toString (fun n : Nat => decide (n ≠ 0))
      1 (10000001 / 10000000) 6 "ell" "hello" 3 3 0 [1, 2, 3] ⟨1, 5⟩).1
      (by norm_num [pyRound, roundHalfAway, pow10, show Int.toNat 6 = 6 from rfl]),
   (success_return_values_spec toString toString (fun n : Nat => decide (n ≠ 0))
      1 (101 / 100) 2 "ell" "hello" 3 3 0 [1, 2, 3] ⟨1, 5⟩).2.1
      (by norm_num [pyRound, roundHalfAway, pow10, show Int.toNat 2 = 2 from rfl]),
   (success_return_values_spec toString toString (fun n : Nat => decide (n ≠ 0))
      1 (101 / 100) 2 "ell" "hello" 3 3 0 [1, 2, 3] ⟨1, 5⟩).2.2.1
      (by decide),
   (success_return_values_spec toString toString (fun n : Nat => decide (n ≠ 0))
      1 (101 / 100) 2 "xyz" "hello" 3 3 0 [1, 2, 3] ⟨1, 5⟩).2.2.2.1
      (by decide),
   (success_return_values_spec toString toString (fun n : Nat => decide (n ≠ 0))
      1 (101 / 100) 2 "ell" "hello" 3 3 0 [1, 2, 3] ⟨1, 5⟩).2.2.2.2.1,
   (success_return_values_spec toString toString (fun n : Nat => decide (n ≠ 0))
      1 (101 / 100) 2 "ell" "hello" 3 3 0 [1, 2, 3] ⟨1, 5⟩).2.2.2.2.2.1
      (by decide),
   (success_return_values_spec toString toString (fun n : Nat => decide (n ≠ 0))
      1 (101 / 100) 2 "ell" "hello" 3 3 0 [1, 2, 3] ⟨1, 5⟩).2.2.2.2.2.2.1
      rfl,
   (success_return_values_spec toString toString (fun n : Nat => decide (n ≠ 0))
      1 (101 / 100) 2 "ell" "hello" 3 3 0 [1, 2, 3] ⟨1, 5⟩).2.2.2.2.2.2.2⟩

end TrialAssertions
